import Mathlib

/-!
Verification of the authentication-flow simulator
(`Help files for Prompt/Phase 1 implementation plan/script.py`).

The script defines a class `AuthenticationSimulator` with hard-coded
configuration strings and three operations:
`generate_login_url`, `simulate_sha256_hashing`, `validate_token_exchange`,
plus a smoke test `test_authentication_flow`.

We embed the Python code shallowly: the simulator object becomes an
immutable structure, each method a total Lean function; the heterogeneous
result dictionaries become `Except`-results or record types matching the
keys the code puts in them.  `hashlib.sha256(...).hexdigest()` is embedded
by a full executable SHA-256 over byte lists (`Nat` bytes, arithmetic
mod 2^32), and `str.encode()` by a UTF-8 encoder on code points.
-/

/-! ## SHA-256 over byte lists (embedding of `hashlib.sha256(..).hexdigest()`) -/

/-- Truncation to a 32-bit word. -/
def w32 (x : Nat) : Nat := x % 4294967296

/-- Right rotation of a 32-bit word by `n` bits. -/
def rotr (x n : Nat) : Nat := w32 ((x >>> n) ||| (x <<< (32 - n)))

/-- SHA-256 `Ch` function. -/
def ch (x y z : Nat) : Nat := (x &&& y) ^^^ ((x ^^^ 4294967295) &&& z)

/-- SHA-256 `Maj` function. -/
def maj (x y z : Nat) : Nat := (x &&& y) ^^^ (x &&& z) ^^^ (y &&& z)

/-- SHA-256 big sigma 0. -/
def bigSigma0 (x : Nat) : Nat := rotr x 2 ^^^ rotr x 13 ^^^ rotr x 22

/-- SHA-256 big sigma 1. -/
def bigSigma1 (x : Nat) : Nat := rotr x 6 ^^^ rotr x 11 ^^^ rotr x 25

/-- SHA-256 small sigma 0. -/
def smallSigma0 (x : Nat) : Nat := rotr x 7 ^^^ rotr x 18 ^^^ (x >>> 3)

/-- SHA-256 small sigma 1. -/
def smallSigma1 (x : Nat) : Nat := rotr x 17 ^^^ rotr x 19 ^^^ (x >>> 10)

/-- The 64 SHA-256 round constants (FIPS 180-4, written in decimal). -/
def sha256K : List Nat :=
  [1116352408, 1899447441, 3049323471, 3921009573, 961987163, 1508970993,
   2453635748, 2870763221, 3624381080, 310598401, 607225278, 1426881987,
   1925078388, 2162078206, 2614888103, 3248222580, 3835390401, 4022224774,
   264347078, 604807628, 770255983, 1249150122, 1555081692, 1996064986,
   2554220882, 2821834349, 2952996808, 3210313671, 3336571891, 3584528711,
   113926993, 338241895, 666307205, 773529912, 1294757372, 1396182291,
   1695183700, 1986661051, 2177026350, 2456956037, 2730485921, 2820302411,
   3259730800, 3345764771, 3516065817, 3600352804, 4094571909, 275423344,
   430227734, 506948616, 659060556, 883997877, 958139571, 1322822218,
   1537002063, 1747873779, 1955562222, 2024104815, 2227730452, 2361852424,
   2428436474, 2756734187, 3204031479, 3329325298]

/-- The eight working registers of the SHA-256 compression function. -/
structure Regs where
  a : Nat
  b : Nat
  c : Nat
  d : Nat
  e : Nat
  f : Nat
  g : Nat
  h : Nat
deriving DecidableEq

/-- The eight-word SHA-256 hash state. -/
structure Hash8 where
  h0 : Nat
  h1 : Nat
  h2 : Nat
  h3 : Nat
  h4 : Nat
  h5 : Nat
  h6 : Nat
  h7 : Nat
deriving DecidableEq

/-- SHA-256 initial hash value (FIPS 180-4, written in decimal). -/
def sha256H0 : Hash8 :=
  ⟨1779033703, 3144134277, 1013904242, 2773480762,
   1359893119, 2600822924, 528734635, 1541459225⟩

/-- Big-endian 32-bit word from four bytes of a block at word index `t`. -/
def msgWord (block : List Nat) (t : Nat) : Nat :=
  (block.getD (4 * t) 0) <<< 24 ||| (block.getD (4 * t + 1) 0) <<< 16 |||
  (block.getD (4 * t + 2) 0) <<< 8 ||| block.getD (4 * t + 3) 0

/-- The 64-entry message schedule of a 64-byte block. -/
def schedule (block : List Nat) : List Nat :=
  (List.range 48).foldl
    (fun w _ =>
      w ++ [w32 (smallSigma1 (w.getD (w.length - 2) 0) + w.getD (w.length - 7) 0 +
                 smallSigma0 (w.getD (w.length - 15) 0) + w.getD (w.length - 16) 0)])
    ((List.range 16).map (msgWord block))

/-- One round of the SHA-256 compression function with round constant `k` and schedule word `w`. -/
def roundStep (k w : Nat) (r : Regs) : Regs :=
  let t1 := w32 (r.h + bigSigma1 r.e + ch r.e r.f r.g + k + w)
  let t2 := w32 (bigSigma0 r.a + maj r.a r.b r.c)
  ⟨w32 (t1 + t2), r.a, r.b, r.c, w32 (r.d + t1), r.e, r.f, r.g⟩

/-- Process one 64-byte block, updating the hash state. -/
def processBlock (hs : Hash8) (block : List Nat) : Hash8 :=
  let ws := schedule block
  let r := (List.range 64).foldl
    (fun r t => roundStep (sha256K.getD t 0) (ws.getD t 0) r)
    ⟨hs.h0, hs.h1, hs.h2, hs.h3, hs.h4, hs.h5, hs.h6, hs.h7⟩
  ⟨w32 (hs.h0 + r.a), w32 (hs.h1 + r.b), w32 (hs.h2 + r.c), w32 (hs.h3 + r.d),
   w32 (hs.h4 + r.e), w32 (hs.h5 + r.f), w32 (hs.h6 + r.g), w32 (hs.h7 + r.h)⟩

/-- SHA-256 padding: append `0x80`, zeros up to 56 mod 64, then the 64-bit big-endian bit length. -/
def padBytes (msg : List Nat) : List Nat :=
  let len := msg.length
  let zeros := (120 - (len + 1) % 64) % 64
  msg ++ [128] ++ List.replicate zeros 0 ++
    (List.range 8).map (fun i => ((len * 8) >>> ((7 - i) * 8)) % 256)

/-- Big-endian byte decomposition of a 32-bit word. -/
def wordBytes (w : Nat) : List Nat :=
  [(w >>> 24) % 256, (w >>> 16) % 256, (w >>> 8) % 256, w % 256]

/-- SHA-256 digest of a byte list, as a list of 32 bytes. -/
def sha256Bytes (msg : List Nat) : List Nat :=
  let padded := padBytes msg
  let fin := (List.range (padded.length / 64)).foldl
    (fun hs i => processBlock hs ((padded.drop (64 * i)).take 64)) sha256H0
  [fin.h0, fin.h1, fin.h2, fin.h3, fin.h4, fin.h5, fin.h6, fin.h7].flatMap wordBytes

/-- Lowercase hexadecimal digit character for a value below 16. -/
def hexDigit (n : Nat) : Char :=
  if n < 10 then Char.ofNat (48 + n) else Char.ofNat (87 + n)

/-- Two lowercase hex characters of one byte. -/
def byteToHex (b : Nat) : List Char :=
  [hexDigit (b / 16), hexDigit (b % 16)]

/-- Lowercase hex string of a byte list (embedding of `.hexdigest()`). -/
def bytesToHex (bs : List Nat) : String :=
  ⟨bs.flatMap byteToHex⟩

/-- UTF-8 encoding of one Unicode code point, as bytes. -/
def utf8EncodeChar (c : Nat) : List Nat :=
  if c < 128 then [c]
  else if c < 2048 then [192 ||| (c >>> 6), 128 ||| (c &&& 63)]
  else if c < 65536 then
    [224 ||| (c >>> 12), 128 ||| ((c >>> 6) &&& 63), 128 ||| (c &&& 63)]
  else
    [240 ||| (c >>> 18), 128 ||| ((c >>> 12) &&& 63), 128 ||| ((c >>> 6) &&& 63), 128 ||| (c &&& 63)]

/-- UTF-8 encoding of a string (embedding of Python `str.encode()`). -/
def utf8Encode (s : String) : List Nat :=
  s.data.flatMap (fun c => utf8EncodeChar c.toNat)

/-- Lowercase hex SHA-256 digest of the UTF-8 bytes of a string: the embedding of
`hashlib.sha256(s.encode()).hexdigest()`. -/
def sha256HexOfString (s : String) : String :=
  bytesToHex (sha256Bytes (utf8Encode s))

/-! ## The authentication simulator (embedding of class `AuthenticationSimulator`) -/

/-- The error dictionary returned by `generate_login_url` on missing configuration. -/
structure ConfigError where
  message : String
deriving DecidableEq

/-- The error dictionary returned by `validate_token_exchange` on a missing request code. -/
structure ExchangeError where
  message : String
deriving DecidableEq

/-- The simulator object: five configuration string fields set by `__init__`.
None of the methods assigns to `self`, so the object is embedded immutably. -/
structure AuthenticationSimulator where
  api_key : String
  api_secret : String
  redirect_uri : String
  token_endpoint : String
  auth_portal : String
deriving DecidableEq

/-- The configuration installed by `AuthenticationSimulator.__init__`. -/
def AuthenticationSimulator.init : AuthenticationSimulator :=
  ⟨"test_api_key", "test_api_secret", "http://localhost:5000/api/auth/callback",
   "https://authapi.flattrade.in/trade/apitoken", "https://auth.flattrade.in/"⟩

/-- The dictionary returned by `simulate_sha256_hashing`:
keys `api_key`, `api_secret`, `request_code`. -/
structure TokenRequestPayload where
  api_key : String
  api_secret : String
  request_code : String
deriving DecidableEq

/-- The success dictionary returned by `validate_token_exchange`:
keys `token`, `expires_in`, `status` (the `success` key is the `Except.ok` constructor). -/
structure TokenResult where
  token : String
  expires_in : Nat
  status : String
deriving DecidableEq

/-- Embedding of `generate_login_url`: returns the error dictionary when
`self.api_key` or `self.redirect_uri` is falsy (empty), otherwise the f-string
`f"\x7bself.auth_portal\x7d?app_key=\x7bself.api_key\x7d&redirect_uri=\x7bself.redirect_uri\x7d"`. -/
def generate_login_url (s : AuthenticationSimulator) : Except ConfigError String :=
  if s.api_key = "" ∨ s.redirect_uri = "" then
    Except.error ⟨"Missing configuration"⟩
  else
    Except.ok (s.auth_portal ++ "?app_key=" ++ s.api_key ++ "&redirect_uri=" ++ s.redirect_uri)

/-- Embedding of `simulate_sha256_hashing`: hashes
`self.api_key + request_code + self.api_secret` and returns the three-key payload. -/
def simulate_sha256_hashing (s : AuthenticationSimulator) (request_code : String) :
    TokenRequestPayload :=
  let hash_input := s.api_key ++ request_code ++ s.api_secret
  let hashed_secret := sha256HexOfString hash_input
  ⟨s.api_key, hashed_secret, request_code⟩

/-- Embedding of `validate_token_exchange`: error on empty request code, otherwise
computes (and discards) the hash payload and returns the mock token result, where
`request_code[:8]` is the list of the first (at most) 8 characters. -/
def validate_token_exchange (s : AuthenticationSimulator) (request_code : String) :
    Except ExchangeError TokenResult :=
  if request_code = "" then
    Except.error ⟨"No request code provided"⟩
  else
    let token_data := simulate_sha256_hashing s request_code
    Except.ok ⟨"mock_token_" ++ String.mk (request_code.data.take 8), 86400, "Ok"⟩

/-- Embedding of `test_authentication_flow`.  A failed `assert` (or the `KeyError`
raised by reading the missing `success` key of an error dictionary) aborts the run:
both are modelled as `none`.  A completed run returns `some true` (Python `return True`). -/
def test_authentication_flow (s : AuthenticationSimulator) : Option Bool :=
  match generate_login_url s with
  | Except.error _ => none
  | Except.ok _ =>
    let mock_request_code := "test_request_code_123"
    match validate_token_exchange s mock_request_code with
    | Except.error _ => none
    | Except.ok _ =>
      let hash_result := simulate_sha256_hashing s mock_request_code
      if hash_result.api_key == s.api_key then
        if hash_result.api_secret.length == 64 then some true else none
      else none

/-- The module-level instance `auth_simulator = AuthenticationSimulator()`. -/
def auth_simulator : AuthenticationSimulator := AuthenticationSimulator.init

/-! ## The specification-level interface

The spec presents the three operations as standalone functions whose extra string
parameters stand for the configuration fields the corresponding method reads. -/

/-- Spec interface `buildLoginUrl(apiKey, redirectUri, authPortalBase)`:
`generate_login_url` on a simulator carrying the given fields. -/
def buildLoginUrl (apiKey redirectUri authPortalBase : String) : Except ConfigError String :=
  generate_login_url
    ⟨apiKey, auth_simulator.api_secret, redirectUri, auth_simulator.token_endpoint, authPortalBase⟩

/-- Spec interface `computeExchangeSecret(apiKey, requestCode, apiSecret)`: the
`api_secret` entry of the payload built by `simulate_sha256_hashing`. -/
def computeExchangeSecret (apiKey requestCode apiSecret : String) : String :=
  (simulate_sha256_hashing
    ⟨apiKey, apiSecret, auth_simulator.redirect_uri, auth_simulator.token_endpoint,
     auth_simulator.auth_portal⟩ requestCode).api_secret

/-- Spec interface `exchangeToken(requestCode)`: `validate_token_exchange` on the
module-level simulator instance. -/
def exchangeToken (requestCode : String) : Except ExchangeError TokenResult :=
  validate_token_exchange auth_simulator requestCode

/-! ## State-transformer view of the methods

Python methods could mutate `self`; to state frame properties we embed each method
a second time as a function returning its result together with the post-state,
translating the body statement by statement (no statement assigns to `self`). -/

/-- Method `generate_login_url` as a state transformer. -/
def generate_login_url_run (s : AuthenticationSimulator) :
    (Except ConfigError String) × AuthenticationSimulator :=
  if s.api_key = "" ∨ s.redirect_uri = "" then
    (Except.error ⟨"Missing configuration"⟩, s)
  else
    let url := s.auth_portal ++ "?app_key=" ++ s.api_key ++ "&redirect_uri=" ++ s.redirect_uri
    (Except.ok url, s)

/-- Method `simulate_sha256_hashing` as a state transformer. -/
def simulate_sha256_hashing_run (s : AuthenticationSimulator) (request_code : String) :
    TokenRequestPayload × AuthenticationSimulator :=
  let hash_input := s.api_key ++ request_code ++ s.api_secret
  let hashed_secret := sha256HexOfString hash_input
  (⟨s.api_key, hashed_secret, request_code⟩, s)

/-- Method `validate_token_exchange` as a state transformer. -/
def validate_token_exchange_run (s : AuthenticationSimulator) (request_code : String) :
    (Except ExchangeError TokenResult) × AuthenticationSimulator :=
  if request_code = "" then
    (Except.error ⟨"No request code provided"⟩, s)
  else
    let token_data := simulate_sha256_hashing s request_code
    (Except.ok ⟨"mock_token_" ++ String.mk (request_code.data.take 8), 86400, "Ok"⟩, s)

/-- Lowercase-hexadecimal character test: a digit `0`-`9` or a letter `a`-`f`. -/
def isHexCharB (c : Char) : Bool :=
  (48 ≤ c.toNat && c.toNat ≤ 57) || (97 ≤ c.toNat && c.toNat ≤ 102)

/-! ## Helper lemmas about the digest format -/

/-- Every value below 16 is rendered by `hexDigit` as a lowercase hex character. -/
theorem hexDigit_isHex : ∀ n < 16, isHexCharB (hexDigit n) = true := by decide

/-- Every byte of a big-endian word decomposition is below 256. -/
theorem mem_wordBytes_lt (w : Nat) : ∀ b ∈ wordBytes w, b < 256 := by
  intro b hb
  simp only [wordBytes, List.mem_cons, List.not_mem_nil, or_false] at hb
  rcases hb with rfl | rfl | rfl | rfl <;> exact Nat.mod_lt _ (by omega)

/-- Every byte of a SHA-256 digest is below 256. -/
theorem sha256Bytes_lt (m : List Nat) : ∀ b ∈ sha256Bytes m, b < 256 := by
  intro b hb
  simp only [sha256Bytes, List.mem_flatMap] at hb
  obtain ⟨w, _, hbw⟩ := hb
  exact mem_wordBytes_lt w b hbw

/-- A SHA-256 digest consists of exactly 32 bytes. -/
theorem length_sha256Bytes (m : List Nat) : (sha256Bytes m).length = 32 := by
  simp [sha256Bytes, wordBytes]

/-- Hex rendering doubles the byte count. -/
theorem length_bytesToHex (bs : List Nat) : (bytesToHex bs).length = 2 * bs.length := by
  show (bs.flatMap byteToHex).length = 2 * bs.length
  induction bs with
  | nil => rfl
  | cons b tl ih =>
    show (byteToHex b ++ tl.flatMap byteToHex).length = 2 * (tl.length + 1)
    rw [List.length_append, ih]
    simp [byteToHex]
    omega

/-- Hex rendering of bytes below 256 yields only lowercase hex characters. -/
theorem bytesToHex_all_hex (bs : List Nat) (h : ∀ b ∈ bs, b < 256) :
    (bytesToHex bs).data.all isHexCharB = true := by
  show (bs.flatMap byteToHex).all isHexCharB = true
  induction bs with
  | nil => rfl
  | cons b tl ih =>
    have hb : b < 256 := h b (List.mem_cons_self b tl)
    have htl : ∀ x ∈ tl, x < 256 := fun x hx => h x (List.mem_cons_of_mem b hx)
    have h1 : isHexCharB (hexDigit (b / 16)) = true :=
      hexDigit_isHex _ ((Nat.div_lt_iff_lt_mul (by omega)).mpr (by omega))
    have h2 : isHexCharB (hexDigit (b % 16)) = true :=
      hexDigit_isHex _ (Nat.mod_lt _ (by omega))
    show (byteToHex b ++ tl.flatMap byteToHex).all isHexCharB = true
    rw [List.all_append]
    simp [byteToHex, h1, h2, ih htl]

/-- The hex digest of any string has exactly 64 characters. -/
theorem length_sha256HexOfString (s : String) : (sha256HexOfString s).length = 64 := by
  show (bytesToHex (sha256Bytes (utf8Encode s))).length = 64
  rw [length_bytesToHex, length_sha256Bytes]

/-- The hex digest of any string consists only of lowercase hex characters. -/
theorem sha256HexOfString_all_hex (s : String) :
    (sha256HexOfString s).data.all isHexCharB = true :=
  bytesToHex_all_hex _ (sha256Bytes_lt _)

/-- Closed form of `validate_token_exchange`. -/
theorem validate_token_exchange_eq (s : AuthenticationSimulator) (rc : String) :
    validate_token_exchange s rc =
      if rc = "" then Except.error ⟨"No request code provided"⟩
      else Except.ok ⟨"mock_token_" ++ String.mk (rc.data.take 8), 86400, "Ok"⟩ := rfl

/-- Closed form of `buildLoginUrl`. -/
theorem buildLoginUrl_eq (a r base : String) :
    buildLoginUrl a r base =
      if a = "" ∨ r = "" then Except.error ⟨"Missing configuration"⟩
      else Except.ok (base ++ "?app_key=" ++ a ++ "&redirect_uri=" ++ r) := rfl

/-! ## Claim theorems -/

set_option maxRecDepth 100000 in
/-- C1: for every `apiKey`, `requestCode` and `apiSecret`, `computeExchangeSecret`
returns the lowercase hexadecimal SHA-256 digest (64 hex characters) of the UTF-8
bytes of `apiKey ++ requestCode ++ apiSecret`; in particular on the example inputs
it equals the digest of the literal concatenated string, whose value is the
independently computed `"534a9ee956c42477378b59deee7ce1cadeaeb683db40262a1b5461201e985d31"`. -/
theorem computeExchangeSecret_sha256_spec :
    (∀ apiKey requestCode apiSecret : String,
      computeExchangeSecret apiKey requestCode apiSecret =
        sha256HexOfString (apiKey ++ requestCode ++ apiSecret) ∧
      (computeExchangeSecret apiKey requestCode apiSecret).length = 64 ∧
      (computeExchangeSecret apiKey requestCode apiSecret).data.all isHexCharB = true) ∧
    computeExchangeSecret "test_api_key" "test_request_code_123" "test_api_secret" =
      sha256HexOfString "test_api_keytest_request_code_123test_api_secret" ∧
    computeExchangeSecret "test_api_key" "test_request_code_123" "test_api_secret" =
      "534a9ee956c42477378b59deee7ce1cadeaeb683db40262a1b5461201e985d31" := by
  refine ⟨fun a r c => ⟨rfl, length_sha256HexOfString _, sha256HexOfString_all_hex _⟩, ?_, ?_⟩
  · show sha256HexOfString ("test_api_key" ++ "test_request_code_123" ++ "test_api_secret") =
        sha256HexOfString "test_api_keytest_request_code_123test_api_secret"
    exact congrArg sha256HexOfString (by decide)
  · decide

/-- C2: `buildLoginUrl` fails with the configuration error exactly when `apiKey`
or `redirectUri` is empty; otherwise it returns `authPortalBase` with
`?app_key=<apiKey>&redirect_uri=<redirectUri>` appended verbatim (no URL-encoding),
so both inputs occur as literal substrings of the URL. -/
theorem buildLoginUrl_spec :
    ∀ apiKey redirectUri authPortalBase : String,
      (buildLoginUrl apiKey redirectUri authPortalBase =
          Except.error ⟨"Missing configuration"⟩ ↔ (apiKey = "" ∨ redirectUri = "")) ∧
      (apiKey ≠ "" → redirectUri ≠ "" →
        buildLoginUrl apiKey redirectUri authPortalBase =
          Except.ok (authPortalBase ++ "?app_key=" ++ apiKey ++ "&redirect_uri=" ++ redirectUri) ∧
        apiKey.data <:+:
          (authPortalBase ++ "?app_key=" ++ apiKey ++ "&redirect_uri=" ++ redirectUri).data ∧
        redirectUri.data <:+:
          (authPortalBase ++ "?app_key=" ++ apiKey ++ "&redirect_uri=" ++ redirectUri).data) := by
  intro a r base
  constructor
  · rw [buildLoginUrl_eq]
    by_cases h : a = "" ∨ r = "" <;> simp [h]
  · intro ha hr
    refine ⟨?_, ?_, ?_⟩
    · rw [buildLoginUrl_eq, if_neg (not_or.mpr ⟨ha, hr⟩)]
    · exact ⟨(base ++ "?app_key=").data, ("&redirect_uri=" ++ r).data,
        by simp [String.data_append]⟩
    · exact ⟨(base ++ "?app_key=" ++ a ++ "&redirect_uri=").data, [],
        by simp [String.data_append]⟩

/-- C2 witness: on the default configuration strings the URL is built verbatim. -/
theorem buildLoginUrl_spec_witness :
    buildLoginUrl "test_api_key" "http://localhost:5000/api/auth/callback"
        "https://auth.flattrade.in/" =
      Except.ok
        "https://auth.flattrade.in/?app_key=test_api_key&redirect_uri=http://localhost:5000/api/auth/callback" :=
  ((buildLoginUrl_spec "test_api_key" "http://localhost:5000/api/auth/callback"
      "https://auth.flattrade.in/").2 (by decide) (by decide)).1

/-- C3: on every non-empty request code, `exchangeToken` succeeds with token
`"mock_token_"` followed by the first 8 characters of the request code (the whole
code when it has at most 8 characters), expiry `86400`, and status flag `"Ok"`. -/
theorem exchangeToken_success (requestCode : String) (h : requestCode ≠ "") :
    exchangeToken requestCode =
      Except.ok ⟨"mock_token_" ++ String.mk (requestCode.data.take 8), 86400, "Ok"⟩ ∧
    (requestCode.data.length ≤ 8 →
      exchangeToken requestCode = Except.ok ⟨"mock_token_" ++ requestCode, 86400, "Ok"⟩) := by
  constructor
  · show validate_token_exchange auth_simulator requestCode = _
    rw [validate_token_exchange_eq, if_neg h]
  · intro hlen
    show validate_token_exchange auth_simulator requestCode = _
    rw [validate_token_exchange_eq, if_neg h, List.take_of_length_le hlen]

/-- C3 witness: the spec's example request code `"abc123"` (shorter than 8). -/
theorem exchangeToken_success_witness :
    exchangeToken "abc123" = Except.ok ⟨"mock_token_" ++ "abc123", 86400, "Ok"⟩ :=
  (exchangeToken_success "abc123" (by decide)).2 (by decide)

/-- C4: `exchangeToken` fails exactly on the empty request code, with the one
exchange-error value; `validate_token_exchange` has no other failure condition on
any configuration; and the only error values any operation produces are the single
`ExchangeError` and the single `ConfigError`. -/
theorem error_conditions :
    (∀ requestCode : String,
      ((∃ e : ExchangeError, exchangeToken requestCode = Except.error e) ↔
        requestCode = "") ∧
      (∀ e : ExchangeError, exchangeToken requestCode = Except.error e →
        e = ⟨"No request code provided"⟩)) ∧
    (∀ (s : AuthenticationSimulator) (requestCode : String),
      (∃ e : ExchangeError, validate_token_exchange s requestCode = Except.error e) ↔
        requestCode = "") ∧
    (∀ s : AuthenticationSimulator,
      ((∃ e : ConfigError, generate_login_url s = Except.error e) ↔
        (s.api_key = "" ∨ s.redirect_uri = "")) ∧
      (∀ e : ConfigError, generate_login_url s = Except.error e →
        e = ⟨"Missing configuration"⟩)) := by
  have hv : ∀ (s : AuthenticationSimulator) (rc : String),
      (∃ e : ExchangeError, validate_token_exchange s rc = Except.error e) ↔ rc = "" := by
    intro s rc
    rw [validate_token_exchange_eq]
    by_cases h : rc = "" <;> simp [h]
  refine ⟨fun rc => ⟨hv auth_simulator rc, ?_⟩, hv, fun s => ⟨?_, ?_⟩⟩
  · intro e he
    by_cases h : rc = ""
    · have : validate_token_exchange auth_simulator rc =
          Except.error ⟨"No request code provided"⟩ := by
        rw [validate_token_exchange_eq, if_pos h]
      rw [show exchangeToken rc = validate_token_exchange auth_simulator rc from rfl, this]
        at he
      exact (Except.error.inj he).symm
    · have : exchangeToken rc =
          Except.ok ⟨"mock_token_" ++ String.mk (rc.data.take 8), 86400, "Ok"⟩ := by
        show validate_token_exchange auth_simulator rc = _
        rw [validate_token_exchange_eq, if_neg h]
      rw [this] at he
      exact absurd he (by simp)
  · unfold generate_login_url
    by_cases h : s.api_key = "" ∨ s.redirect_uri = "" <;> simp [h]
  · intro e he
    unfold generate_login_url at he
    by_cases h : s.api_key = "" ∨ s.redirect_uri = ""
    · rw [if_pos h] at he
      exact (Except.error.inj he).symm
    · rw [if_neg h] at he
      exact absurd he (by simp)

/-- C4 witness: the empty request code yields exactly the exchange-error value. -/
theorem error_conditions_witness :
    exchangeToken "" = Except.error ⟨"No request code provided"⟩ := by
  obtain ⟨e, he⟩ := (error_conditions.1 "").1.mpr rfl
  rw [(error_conditions.1 "").2 e he] at he
  exact he

/-- C5: `computeExchangeSecret` is deterministic — two runs on identical inputs
produce the identical digest — and its output is always exactly 64 characters
drawn from `0`-`9` and `a`-`f`. -/
theorem computeExchangeSecret_deterministic :
    ∀ a₁ a₂ r₁ r₂ c₁ c₂ : String, a₁ = a₂ → r₁ = r₂ → c₁ = c₂ →
      computeExchangeSecret a₁ r₁ c₁ = computeExchangeSecret a₂ r₂ c₂ ∧
      (computeExchangeSecret a₁ r₁ c₁).length = 64 ∧
      (computeExchangeSecret a₁ r₁ c₁).data.all isHexCharB = true := by
  rintro a _ r _ c _ rfl rfl rfl
  exact ⟨rfl, length_sha256HexOfString _, sha256HexOfString_all_hex _⟩

/-- C5 witness: determinism and the 64-character hex format at the example inputs. -/
theorem computeExchangeSecret_deterministic_witness :
    computeExchangeSecret "test_api_key" "test_request_code_123" "test_api_secret" =
      computeExchangeSecret "test_api_key" "test_request_code_123" "test_api_secret" ∧
    (computeExchangeSecret "test_api_key" "test_request_code_123" "test_api_secret").length =
      64 :=
  ⟨(computeExchangeSecret_deterministic "test_api_key" "test_api_key"
      "test_request_code_123" "test_request_code_123" "test_api_secret" "test_api_secret"
      rfl rfl rfl).1,
   (computeExchangeSecret_deterministic "test_api_key" "test_api_key"
      "test_request_code_123" "test_request_code_123" "test_api_secret" "test_api_secret"
      rfl rfl rfl).2.1⟩

/-- C6: every input — the empty string included — yields a value from each
operation: a structured `ok`/`error` result for `buildLoginUrl` and
`exchangeToken`, and a digest string for `computeExchangeSecret`; no input
reaches a fatal or unhandled path. -/
theorem operations_total :
    ∀ apiKey redirectUri authPortalBase requestCode apiSecret : String,
      ((∃ url, buildLoginUrl apiKey redirectUri authPortalBase = Except.ok url) ∨
       (∃ e, buildLoginUrl apiKey redirectUri authPortalBase = Except.error e)) ∧
      (∃ digest, computeExchangeSecret apiKey requestCode apiSecret = digest) ∧
      ((∃ t, exchangeToken requestCode = Except.ok t) ∨
       (∃ e, exchangeToken requestCode = Except.error e)) := by
  intro a r base rc c
  refine ⟨?_, ⟨_, rfl⟩, ?_⟩
  · rw [buildLoginUrl_eq]
    by_cases h : a = "" ∨ r = ""
    · right; rw [if_pos h]; exact ⟨_, rfl⟩
    · left; rw [if_neg h]; exact ⟨_, rfl⟩
  · show (∃ t, validate_token_exchange auth_simulator rc = Except.ok t) ∨
      (∃ e, validate_token_exchange auth_simulator rc = Except.error e)
    rw [validate_token_exchange_eq]
    by_cases h : rc = ""
    · right; rw [if_pos h]; exact ⟨_, rfl⟩
    · left; rw [if_neg h]; exact ⟨_, rfl⟩

/-- C7: each method leaves every configuration field of the simulator unchanged
(the post-state of the state-transformer embedding is the pre-state), its returned
value is the corresponding pure function of the receiver and the arguments, and
that value depends only on those: equal receivers and arguments give equal results. -/
theorem methods_pure :
    ∀ (s : AuthenticationSimulator) (request_code : String),
      (generate_login_url_run s).2 = s ∧
      (simulate_sha256_hashing_run s request_code).2 = s ∧
      (validate_token_exchange_run s request_code).2 = s ∧
      (generate_login_url_run s).1 = generate_login_url s ∧
      (simulate_sha256_hashing_run s request_code).1 = simulate_sha256_hashing s request_code ∧
      (validate_token_exchange_run s request_code).1 = validate_token_exchange s request_code ∧
      (∀ (s' : AuthenticationSimulator) (rc' : String), s = s' → request_code = rc' →
        generate_login_url s = generate_login_url s' ∧
        simulate_sha256_hashing s request_code = simulate_sha256_hashing s' rc' ∧
        validate_token_exchange s request_code = validate_token_exchange s' rc') := by
  intro s rc
  refine ⟨?_, rfl, ?_, ?_, rfl, ?_, ?_⟩
  · unfold generate_login_url_run; split <;> rfl
  · unfold validate_token_exchange_run; split <;> rfl
  · unfold generate_login_url_run generate_login_url; split <;> rfl
  · unfold validate_token_exchange_run validate_token_exchange; split <;> rfl
  · rintro _ _ rfl rfl
    exact ⟨rfl, rfl, rfl⟩

/-- C7 witness: frame and congruence exercised on the default instance. -/
theorem methods_pure_witness :
    (generate_login_url_run auth_simulator).2 = auth_simulator ∧
    validate_token_exchange auth_simulator "test_request_code_123" =
      validate_token_exchange auth_simulator "test_request_code_123" :=
  ⟨(methods_pure auth_simulator "test_request_code_123").1,
   ((methods_pure auth_simulator "test_request_code_123").2.2.2.2.2.2 auth_simulator
      "test_request_code_123" rfl rfl).2.2⟩

/-- C8: the result of the token exchange is independent of the configured
`api_key` and `api_secret`: two simulators differing only in those two fields
give the same result for every request code (the hash payload computed during
the exchange is discarded). -/
theorem exchange_independent_of_secrets :
    ∀ (s₁ s₂ : AuthenticationSimulator) (requestCode : String),
      s₁.redirect_uri = s₂.redirect_uri → s₁.token_endpoint = s₂.token_endpoint →
      s₁.auth_portal = s₂.auth_portal →
      validate_token_exchange s₁ requestCode = validate_token_exchange s₂ requestCode := by
  intro s₁ s₂ rc _ _ _
  rw [validate_token_exchange_eq, validate_token_exchange_eq]

/-- C8 witness: two configurations with different keys and secrets, same exchange result. -/
theorem exchange_independent_of_secrets_witness :
    validate_token_exchange
        ⟨"key_one", "secret_one", "http://localhost:5000/api/auth/callback",
         "https://authapi.flattrade.in/trade/apitoken", "https://auth.flattrade.in/"⟩
        "abc123" =
      validate_token_exchange
        ⟨"key_two", "secret_two", "http://localhost:5000/api/auth/callback",
         "https://authapi.flattrade.in/trade/apitoken", "https://auth.flattrade.in/"⟩
        "abc123" :=
  exchange_independent_of_secrets _ _ "abc123" rfl rfl rfl

set_option maxRecDepth 100000 in
/-- C9: the built-in smoke test passes on the default configuration: all four
inline assertions hold and the run returns `True`. -/
theorem smoke_test_passes : test_authentication_flow auth_simulator = some true := by
  decide

/-- C10: for every configuration and request code, the hashing operation returns
the complete three-field payload: `api_key` echoed unchanged, `request_code`
unchanged, and `api_secret` holding the 64-character SHA-256 hex digest of
`api_key ++ request_code ++ api_secret` instead of the raw secret. -/
theorem simulate_sha256_hashing_payload :
    ∀ (s : AuthenticationSimulator) (request_code : String),
      simulate_sha256_hashing s request_code =
        ⟨s.api_key, sha256HexOfString (s.api_key ++ request_code ++ s.api_secret),
         request_code⟩ ∧
      (simulate_sha256_hashing s request_code).api_key = s.api_key ∧
      (simulate_sha256_hashing s request_code).request_code = request_code ∧
      (simulate_sha256_hashing s request_code).api_secret.length = 64 :=
  fun s rc => ⟨rfl, rfl, rfl, length_sha256HexOfString (s.api_key ++ rc ++ s.api_secret)⟩
